import Mathlib

/-!
Verification of the Alx_DjangoLearnLab repository.

This file embeds the data model and the request handling of the Django
projects in the repository (the `advanced-api-project` book API, the
`api_project` routing table, and the `relationship_app` user-profile and
role machinery) as executable Lean definitions, and proves the frozen
claims about them.

The embedding follows the source files:
  - advanced-api-project/api/models.py       (Author, Book)
  - advanced-api-project/api/serializers.py  (BookSerializer validation)
  - advanced-api-project/api/views.py        (BookFilter, the five generic views)
  - advanced-api-project/api/urls.py         (routing table)
  - api_project/api_project/urls.py, api_project/api/urls.py, api_project/api/views.py
  - */relationship_app/models.py             (UserProfile, post-save signals)
  - */relationship_app/views.py              (is_admin, is_librarian, is_member)
-/

namespace DjangoLearnLab

/-! ## String utilities

Django's `icontains` lookup is case-insensitive containment of the query
in the field value.  We model it over the character lists of the
lower-cased strings. -/

/-- `charsStartWith q s` is true when `q` is a prefix of the character list `s`. -/
def charsStartWith : List Char → List Char → Bool
  | [], _ => true
  | _ :: _, [] => false
  | a :: as, b :: bs => a == b && charsStartWith as bs

/-- `containsChars q s` is true when `q` occurs contiguously inside `s`. -/
def containsChars (q : List Char) : List Char → Bool
  | [] => charsStartWith q []
  | c :: rest => charsStartWith q (c :: rest) || containsChars q rest

/-- The character list of a string, lower-cased. -/
def lowerChars (s : String) : List Char :=
  s.data.map Char.toLower

/-- Case-insensitive containment: Django's `icontains` lookup. -/
def icontains (hay q : String) : Bool :=
  containsChars (lowerChars q) (lowerChars hay)

/-! ## Data model (advanced-api-project/api/models.py)

`Author` has a `name`; `Book` has `title`, `publication_year` and a
foreign key `author` (held here as the author's primary key).  The
foreign key is declared `on_delete=CASCADE`. -/

structure Author where
  id : Nat
  name : String
deriving DecidableEq, Repr

structure Book where
  id : Nat
  title : String
  publication_year : Int
  author : Nat
deriving DecidableEq, Repr

/-- The database state of the api application: the author and book tables
and the next auto-assigned book primary key. -/
structure ApiState where
  authors : List Author
  books : List Book
  nextBookId : Nat
deriving DecidableEq, Repr

def authorExists (st : ApiState) (aid : Nat) : Bool :=
  st.authors.any (fun a => a.id == aid)

/-- Name of the author with the given primary key (empty if absent). -/
def authorName (st : ApiState) (aid : Nat) : String :=
  match st.authors.find? (fun a => a.id == aid) with
  | some a => a.name
  | none => ""

def findBook (st : ApiState) (pk : Nat) : Option Book :=
  st.books.find? (fun b => b.id == pk)

/-! ## Filtering, searching, ordering (views.py: BookFilter, BookListView)

`BookFilter` declares `title` and `author` as case-insensitive
containment filters (the latter on `author__name`) and
`publication_year` as an exact match.  `search_fields` is
`['title', 'author__name']`; `ordering_fields` is
`['title', 'publication_year']`; the default `ordering` is `['title']`. -/

def filterTitle (q : String) (bs : List Book) : List Book :=
  bs.filter (fun b => icontains b.title q)

def filterAuthor (st : ApiState) (q : String) (bs : List Book) : List Book :=
  bs.filter (fun b => icontains (authorName st b.author) q)

def filterYear (y : Int) (bs : List Book) : List Book :=
  bs.filter (fun b => b.publication_year == y)

/-- Separator for search terms: DRF SearchFilter turns commas into
spaces and then splits the parameter with str.split(), i.e. on runs of
whitespace. -/
def isSearchSep (c : Char) : Bool :=
  c == ',' || c.isWhitespace

/-- Split a character list into its maximal separator-free words (the
first argument accumulates the current word, reversed). -/
def splitTermsAux : List Char → List Char → List (List Char)
  | cur, [] => if cur.isEmpty then [] else [cur.reverse]
  | cur, c :: rest =>
    if isSearchSep c then
      if cur.isEmpty then splitTermsAux [] rest
      else cur.reverse :: splitTermsAux [] rest
    else splitTermsAux (c :: cur) rest

/-- The search terms of a query: commas become whitespace, whitespace
splitting discards empty pieces (DRF SearchFilter.get_search_terms). -/
def searchTerms (q : String) : List String :=
  (splitTermsAux [] q.data).map String.mk

/-- The `search` parameter keeps the rows where every search term
matches case-insensitively in the title or the author's name
(search_fields = ['title', 'author__name']: terms are ANDed, the fields
ORed per term; an empty term list keeps everything). -/
def searchBooks (st : ApiState) (q : String) (bs : List Book) : List Book :=
  bs.filter (fun b =>
    (searchTerms q).all (fun t =>
      icontains b.title t || icontains (authorName st b.author) t))

inductive OrderKey where
  | title
  | publication_year
deriving DecidableEq, Repr

/-- An ordering request: a field and a direction (`desc` is the `-` marker). -/
structure OrderSpec where
  key : OrderKey
  desc : Bool
deriving DecidableEq, Repr

/-- Lexicographic order on character lists (by code point), the order the
database uses for a text column. -/
def lexLe : List Char → List Char → Bool
  | [], _ => true
  | _ :: _, [] => false
  | a :: as, b :: bs => if a < b then true else if a = b then lexLe as bs else false

def titleLe (x y : Book) : Prop := lexLe x.title.data y.title.data = true

def titleGe (x y : Book) : Prop := lexLe y.title.data x.title.data = true

def yearLe (x y : Book) : Prop := x.publication_year ≤ y.publication_year

def yearGe (x y : Book) : Prop := y.publication_year ≤ x.publication_year

instance : DecidableRel titleLe := fun x y =>
  inferInstanceAs (Decidable (lexLe x.title.data y.title.data = true))

instance : DecidableRel titleGe := fun x y =>
  inferInstanceAs (Decidable (lexLe y.title.data x.title.data = true))

instance : DecidableRel yearLe := fun x y =>
  inferInstanceAs (Decidable (x.publication_year ≤ y.publication_year))

instance : DecidableRel yearGe := fun x y =>
  inferInstanceAs (Decidable (y.publication_year ≤ x.publication_year))

def applyOrdering (o : OrderSpec) (bs : List Book) : List Book :=
  match o.key, o.desc with
  | OrderKey.title, false => List.insertionSort titleLe bs
  | OrderKey.title, true => List.insertionSort titleGe bs
  | OrderKey.publication_year, false => List.insertionSort yearLe bs
  | OrderKey.publication_year, true => List.insertionSort yearGe bs

/-- Query parameters accepted by the book list view. -/
structure QueryParams where
  title : Option String
  author : Option String
  publication_year : Option Int
  search : Option String
  ordering : Option OrderSpec
deriving DecidableEq, Repr

def applyFilters (st : ApiState) (qp : QueryParams) (bs : List Book) : List Book :=
  let bs1 := match qp.title with
    | some q => filterTitle q bs
    | none => bs
  let bs2 := match qp.author with
    | some q => filterAuthor st q bs1
    | none => bs1
  let bs3 := match qp.publication_year with
    | some y => filterYear y bs2
    | none => bs2
  match qp.search with
  | some q => searchBooks st q bs3
  | none => bs3

/-- The book list endpoint: filter backends run, then the ordering filter
sorts by the requested field, defaulting to the view's `ordering = ['title']`. -/
def listBooks (st : ApiState) (qp : QueryParams) : List Book :=
  let bs := applyFilters st qp st.books
  match qp.ordering with
  | some o => applyOrdering o bs
  | none => applyOrdering ⟨OrderKey.title, false⟩ bs

/-! ## Request semantics (views.py, serializers.py)

The five generic views are modelled by one step function.  Permission
checks run first (`IsAuthenticated` on create/update/delete,
`IsAuthenticatedOrReadOnly` on the GET views), then object lookup
(404), then serializer validation (400), then the database write. -/

/-- A deserialized request body for the book serializer
(fields = ['id', 'title', 'publication_year', 'author']; id is read-only). -/
structure BookPayload where
  title : String
  publication_year : Int
  author : Nat
deriving DecidableEq, Repr

/-- Field named by a serializer validation error. -/
inductive ErrField where
  | title
  | publication_year
  | author
deriving DecidableEq, Repr

/-- Validation of the title field that ModelSerializer generates from
CharField(max_length=255): required and not blank, at most 255
characters. -/
def validTitle (t : String) : Bool :=
  !t.data.isEmpty && decide (t.data.length ≤ 255)

/-- BookSerializer.validate_publication_year: reject a year strictly
greater than the current year. -/
def validate_publication_year (currentYear y : Int) : List ErrField :=
  if y > currentYear then [ErrField.publication_year] else []

/-- Full serializer validation, in field order: the generated title
checks (non-blank, max_length 255), the custom publication_year check,
and the framework's check that the author foreign key names an existing
author. -/
def validateBook (currentYear : Int) (st : ApiState) (p : BookPayload) : List ErrField :=
  (if validTitle p.title then [] else [ErrField.title]) ++
    validate_publication_year currentYear p.publication_year ++
    (if authorExists st p.author then [] else [ErrField.author])

structure ApiResponse where
  status : Nat
  errors : List ErrField
  book : Option Book
  results : List Book
deriving DecidableEq, Repr

inductive Op where
  | list (qp : QueryParams)
  | retrieve (pk : Nat)
  | create (p : BookPayload)
  | update (pk : Nat) (p : BookPayload)
  | delete (pk : Nat)
deriving DecidableEq, Repr

/-- Status for a write request without credentials.  DRF returns 403
(Forbidden) under session authentication and 401 when a WWW-Authenticate
challenge applies; the test suite accepts either. -/
def unauthorizedStatus : Nat := 403

/-- One HTTP request against the book API.  `authed` is whether the
request carries valid authentication. -/
def apiStep (currentYear : Int) (authed : Bool) (op : Op) (st : ApiState) :
    ApiResponse × ApiState :=
  match op with
  | Op.list qp => (⟨200, [], none, listBooks st qp⟩, st)
  | Op.retrieve pk =>
    match findBook st pk with
    | some b => (⟨200, [], some b, []⟩, st)
    | none => (⟨404, [], none, []⟩, st)
  | Op.create p =>
    if authed then
      let errs := validateBook currentYear st p
      if errs.isEmpty then
        let nb : Book := ⟨st.nextBookId, p.title, p.publication_year, p.author⟩
        (⟨201, [], some nb, []⟩, ⟨st.authors, st.books ++ [nb], st.nextBookId + 1⟩)
      else (⟨400, errs, none, []⟩, st)
    else (⟨unauthorizedStatus, [], none, []⟩, st)
  | Op.update pk p =>
    if authed then
      match findBook st pk with
      | none => (⟨404, [], none, []⟩, st)
      | some _ =>
        let errs := validateBook currentYear st p
        if errs.isEmpty then
          let upd := fun (b : Book) =>
            if b.id == pk then ⟨b.id, p.title, p.publication_year, p.author⟩ else b
          (⟨200, [], some ⟨pk, p.title, p.publication_year, p.author⟩, []⟩,
           ⟨st.authors, st.books.map upd, st.nextBookId⟩)
        else (⟨400, errs, none, []⟩, st)
    else (⟨unauthorizedStatus, [], none, []⟩, st)
  | Op.delete pk =>
    if authed then
      match findBook st pk with
      | none => (⟨404, [], none, []⟩, st)
      | some _ =>
        (⟨204, [], none, []⟩,
         ⟨st.authors, st.books.filter (fun b => b.id != pk), st.nextBookId⟩)
    else (⟨unauthorizedStatus, [], none, []⟩, st)

/-- Deleting an author row: `on_delete=CASCADE` on Book.author removes the
author's books with it. -/
def deleteAuthor (aid : Nat) (st : ApiState) : ApiState :=
  ⟨st.authors.filter (fun a => a.id != aid),
   st.books.filter (fun b => b.author != aid),
   st.nextBookId⟩

/-! ## URL routing

A request path is a list of segments; Django's `<int:pk>` converter
yields an integer segment.  A pattern is a list of literal or integer
placeholders, tried in declaration order. -/

inductive PathSeg where
  | str (s : String)
  | num (n : Nat)
deriving DecidableEq, Repr

inductive Pat where
  | lit (s : String)
  | intParam
deriving DecidableEq, Repr

def patMatch : Pat → PathSeg → Bool
  | Pat.lit s, PathSeg.str t => s == t
  | Pat.intParam, PathSeg.num _ => true
  | _, _ => false

def pathMatch : List Pat → List PathSeg → Bool
  | [], [] => true
  | p :: ps, s :: ss => patMatch p s && pathMatch ps ss
  | _, _ => false

/-- The five views wired in advanced-api-project/api/urls.py. -/
inductive AdvView where
  | bookList
  | bookDetail
  | bookCreate
  | bookUpdate
  | bookDelete
deriving DecidableEq, Repr

/-- urlpatterns of advanced-api-project/api/urls.py, in source order:
books/, books/<int:pk>/, books/create/, books/<int:pk>/update/,
books/<int:pk>/delete/. -/
def advUrlpatterns : List (List Pat × AdvView) :=
  [([Pat.lit "books"], AdvView.bookList),
   ([Pat.lit "books", Pat.intParam], AdvView.bookDetail),
   ([Pat.lit "books", Pat.lit "create"], AdvView.bookCreate),
   ([Pat.lit "books", Pat.intParam, Pat.lit "update"], AdvView.bookUpdate),
   ([Pat.lit "books", Pat.intParam, Pat.lit "delete"], AdvView.bookDelete)]

def advResolve (path : List PathSeg) : Option AdvView :=
  (advUrlpatterns.find? (fun pr => pathMatch pr.fst path)).map Prod.snd

/-- Modelled from the spec: the project-level urls.py of
advanced-api-project is not under src/; the spec names its routes as
`/api/books/` etc., i.e. the api app's urlpatterns are mounted under the
`api/` prefix (as api_project's project urls.py does for its api app). -/
def advProjectResolve (path : List PathSeg) : Option AdvView :=
  match path with
  | PathSeg.str "api" :: rest => advResolve rest
  | _ => none

inductive Method where
  | get
  | post
  | put
  | patch
  | delete
deriving DecidableEq, Repr

/-- HTTP methods handled by each generic view class
(ListAPIView, RetrieveAPIView, CreateAPIView, UpdateAPIView, DestroyAPIView). -/
def advAllowed : AdvView → List Method
  | AdvView.bookList => [Method.get]
  | AdvView.bookDetail => [Method.get]
  | AdvView.bookCreate => [Method.post]
  | AdvView.bookUpdate => [Method.put, Method.patch]
  | AdvView.bookDelete => [Method.delete]

/-- Views reachable in api_project: the admin site, the read-only
BookList at api/books/, the BookViewSet router routes at api/books_all/,
and the token-auth endpoint. -/
inductive ApiProjView where
  | adminSite
  | bookListView
  | bookSetList
  | bookSetDetail
  | tokenAuth
deriving DecidableEq, Repr

/-- api_project/api_project/urls.py plus the included
api_project/api/urls.py: admin/, api/books/ (ListAPIView),
api/books_all/ and api/books_all/<pk>/ (ModelViewSet router),
api-token-auth/ (obtain_auth_token). -/
def apiProjResolve (path : List PathSeg) : Option ApiProjView :=
  match path with
  | PathSeg.str "admin" :: _ => some ApiProjView.adminSite
  | [PathSeg.str "api", PathSeg.str "books"] => some ApiProjView.bookListView
  | [PathSeg.str "api", PathSeg.str "books_all"] => some ApiProjView.bookSetList
  | [PathSeg.str "api", PathSeg.str "books_all", PathSeg.num _] =>
    some ApiProjView.bookSetDetail
  | [PathSeg.str "api-token-auth"] => some ApiProjView.tokenAuth
  | _ => none

/-- Methods handled by each api_project view: ListAPIView is GET-only;
the ModelViewSet list route handles GET and POST, its detail route GET,
PUT, PATCH and DELETE; obtain_auth_token is POST-only. -/
def apiProjAllowed : ApiProjView → List Method
  | ApiProjView.adminSite => [Method.get, Method.post]
  | ApiProjView.bookListView => [Method.get]
  | ApiProjView.bookSetList => [Method.get, Method.post]
  | ApiProjView.bookSetDetail => [Method.get, Method.put, Method.patch, Method.delete]
  | ApiProjView.tokenAuth => [Method.post]

/-! ## User profiles and post-save signals (relationship_app/models.py)

`UserProfile` has a OneToOne `user` field and a `role` with default
'Member'.  Two post_save receivers on the user model run in connection
order: `create_user_profile` creates a profile when `created` is true,
and `save_user_profile` re-saves the existing profile (changing no
fields). -/

structure ProfileRec where
  user : Nat
  role : String
deriving DecidableEq, Repr

structure AuthState where
  users : List Nat
  profiles : List ProfileRec
deriving DecidableEq, Repr

def profilesFor (st : AuthState) (uid : Nat) : List ProfileRec :=
  st.profiles.filter (fun p => p.user == uid)

/-- create_user_profile receiver: on a `created` save, insert a
UserProfile for the user with the field default role 'Member'. -/
def create_user_profile (uid : Nat) (created : Bool) (st : AuthState) : AuthState :=
  if created then ⟨st.users, st.profiles ++ [⟨uid, "Member"⟩]⟩ else st

/-- save_user_profile receiver: re-save the user's existing profile; no
field is modified, so the state is unchanged. -/
def save_user_profile (_uid : Nat) (st : AuthState) : AuthState :=
  st

/-- The post_save dispatch for the user model: receivers run in
connection order. -/
def postSaveUser (uid : Nat) (created : Bool) (st : AuthState) : AuthState :=
  save_user_profile uid (create_user_profile uid created st)

/-- Creating a user: the row is inserted, then post_save fires with
created=True. -/
def createUser (uid : Nat) (st : AuthState) : AuthState :=
  postSaveUser uid true ⟨st.users ++ [uid], st.profiles⟩

/-- Saving an existing user: post_save fires with created=False. -/
def saveUser (uid : Nat) (st : AuthState) : AuthState :=
  postSaveUser uid false st

/-! ## Role predicates (relationship_app/views.py) -/

structure UserProfileAttr where
  role : String
deriving DecidableEq, Repr

/-- A request user as seen by the role checks: `is_authenticated`, and
`userprofile` present (`hasattr`) or not. -/
structure WebUser where
  is_authenticated : Bool
  userprofile : Option UserProfileAttr
deriving DecidableEq, Repr

def roleIs (u : WebUser) (r : String) : Bool :=
  match u.userprofile with
  | some p => p.role == r
  | none => false

/-- is_admin: user.is_authenticated and hasattr(user, 'userprofile') and
user.userprofile.role == 'Admin'. -/
def is_admin (u : WebUser) : Bool :=
  u.is_authenticated && roleIs u "Admin"

/-- is_librarian: same shape with role 'Librarian'. -/
def is_librarian (u : WebUser) : Bool :=
  u.is_authenticated && roleIs u "Librarian"

/-- is_member: same shape with role 'Member'. -/
def is_member (u : WebUser) : Bool :=
  u.is_authenticated && roleIs u "Member"

/-- The fixture of test_views.py: two authors, three books. -/
def sampleState : ApiState :=
  ⟨[⟨1, "Test Author"⟩, ⟨2, "Another Author"⟩],
   [⟨1, "Python Programming", 2020, 1⟩,
    ⟨2, "Django Web Development", 2021, 1⟩,
    ⟨3, "JavaScript Basics", 2019, 2⟩],
   4⟩

/-! ## Theorems -/

theorem lexLe_total (as : List Char) :
    ∀ bs, lexLe as bs = true ∨ lexLe bs as = true := by
  induction as with
  | nil => intro bs; exact Or.inl rfl
  | cons a as ih =>
    intro bs
    cases bs with
    | nil => exact Or.inr rfl
    | cons b bs =>
      rcases lt_trichotomy a b with h | h | h
      · exact Or.inl (by simp [lexLe, h])
      · subst h
        rcases ih bs with h2 | h2
        · exact Or.inl (by simp [lexLe, h2])
        · exact Or.inr (by simp [lexLe, h2])
      · exact Or.inr (by simp [lexLe, h])

theorem lexLe_trans (as : List Char) :
    ∀ bs cs, lexLe as bs = true → lexLe bs cs = true → lexLe as cs = true := by
  induction as with
  | nil => intro bs cs _ _; rfl
  | cons a as ih =>
    intro bs cs h1 h2
    cases bs with
    | nil => simp [lexLe] at h1
    | cons b bs =>
      cases cs with
      | nil => simp [lexLe] at h2
      | cons c cs =>
        simp only [lexLe] at h1 h2 ⊢
        by_cases hab : a < b
        · by_cases hbc : b < c
          · simp [lt_trans hab hbc]
          · by_cases hbc2 : b = c
            · subst hbc2; simp [hab]
            · simp [hbc, hbc2] at h2
        · by_cases hab2 : a = b
          · subst hab2
            by_cases hac : a < c
            · simp [hac]
            · by_cases hac2 : a = c
              · subst hac2
                simp [lt_irrefl] at h1 h2 ⊢
                exact ih _ _ h1 h2
              · simp [hac, hac2] at h2
          · simp [hab, hab2] at h1

/-- C5: on the book list endpoint, the `title` parameter keeps exactly the
books whose title contains the given string case-insensitively, `author`
keeps exactly the books whose author's name contains it
case-insensitively, `publication_year` keeps exactly the books with that
exact year, `search` keeps exactly the books matching in title or author
name (every whitespace/comma-separated term of the parameter must match
in one of the two fields), and `ordering` sorts by title or
publication_year, descending when the field is prefixed with '-'. -/
theorem C5_list_filters_search_ordering :
    (∀ (q : String) (bs : List Book) (b : Book),
      b ∈ filterTitle q bs ↔ b ∈ bs ∧ icontains b.title q = true) ∧
    (∀ (st : ApiState) (q : String) (bs : List Book) (b : Book),
      b ∈ filterAuthor st q bs ↔ b ∈ bs ∧ icontains (authorName st b.author) q = true) ∧
    (∀ (y : Int) (bs : List Book) (b : Book),
      b ∈ filterYear y bs ↔ b ∈ bs ∧ b.publication_year = y) ∧
    (∀ (st : ApiState) (q : String) (bs : List Book) (b : Book),
      b ∈ searchBooks st q bs ↔
        b ∈ bs ∧ ∀ t ∈ searchTerms q,
          icontains b.title t = true ∨ icontains (authorName st b.author) t = true) ∧
    (∀ bs : List Book,
      List.Perm (applyOrdering ⟨OrderKey.title, false⟩ bs) bs ∧
      List.Sorted titleLe (applyOrdering ⟨OrderKey.title, false⟩ bs)) ∧
    (∀ bs : List Book,
      List.Perm (applyOrdering ⟨OrderKey.title, true⟩ bs) bs ∧
      List.Sorted titleGe (applyOrdering ⟨OrderKey.title, true⟩ bs)) ∧
    (∀ bs : List Book,
      List.Perm (applyOrdering ⟨OrderKey.publication_year, false⟩ bs) bs ∧
      List.Sorted yearLe (applyOrdering ⟨OrderKey.publication_year, false⟩ bs)) ∧
    (∀ bs : List Book,
      List.Perm (applyOrdering ⟨OrderKey.publication_year, true⟩ bs) bs ∧
      List.Sorted yearGe (applyOrdering ⟨OrderKey.publication_year, true⟩ bs)) ∧
    (∀ (st : ApiState) (t a : Option String) (y : Option Int) (s : Option String)
      (o : OrderSpec),
      listBooks st ⟨t, a, y, s, some o⟩ =
        applyOrdering o (applyFilters st ⟨t, a, y, s, some o⟩ st.books)) := by
  refine ⟨?_, ?_, ?_, ?_, ?_, ?_, ?_, ?_, ?_⟩
  · intro q bs b; simp [filterTitle, List.mem_filter]
  · intro st q bs b; simp [filterAuthor, List.mem_filter]
  · intro y bs b; simp [filterYear, List.mem_filter]
  · intro st q bs b; simp [searchBooks, List.mem_filter, List.all_eq_true]
  · intro bs
    haveI : IsTotal Book titleLe := ⟨fun x y => lexLe_total _ _⟩
    haveI : IsTrans Book titleLe := ⟨fun x y z h1 h2 => lexLe_trans _ _ _ h1 h2⟩
    exact ⟨List.perm_insertionSort _ _, List.sorted_insertionSort _ _⟩
  · intro bs
    haveI : IsTotal Book titleGe := ⟨fun x y => (lexLe_total _ _).symm⟩
    haveI : IsTrans Book titleGe := ⟨fun x y z h1 h2 => lexLe_trans _ _ _ h2 h1⟩
    exact ⟨List.perm_insertionSort _ _, List.sorted_insertionSort _ _⟩
  · intro bs
    haveI : IsTotal Book yearLe := ⟨fun x y => le_total _ _⟩
    haveI : IsTrans Book yearLe := ⟨fun x y z h1 h2 => le_trans h1 h2⟩
    exact ⟨List.perm_insertionSort _ _, List.sorted_insertionSort _ _⟩
  · intro bs
    haveI : IsTotal Book yearGe := ⟨fun x y => le_total _ _⟩
    haveI : IsTrans Book yearGe := ⟨fun x y z h1 h2 => le_trans h2 h1⟩
    exact ⟨List.perm_insertionSort _ _, List.sorted_insertionSort _ _⟩
  · intro st t a y s o; rfl

/-- C6: deleting an author deletes exactly that author's books (CASCADE):
afterwards no book of that author remains, and every book of a different
author is untouched; the author row itself is gone and other authors
remain. -/
theorem C6_author_cascade_delete :
    ∀ (aid : Nat) (st : ApiState),
      (∀ b : Book, b ∈ (deleteAuthor aid st).books ↔ b ∈ st.books ∧ b.author ≠ aid) ∧
      (∀ a : Author, a ∈ (deleteAuthor aid st).authors ↔ a ∈ st.authors ∧ a.id ≠ aid) := by
  intro aid st
  constructor
  · intro b; simp [deleteAuthor, List.mem_filter]
  · intro a; simp [deleteAuthor, List.mem_filter]

/-- C6 witness: in the test fixture, deleting author 1 removes that
author's books and keeps author 2's book. -/
theorem C6_author_cascade_delete_witness :
    (⟨3, "JavaScript Basics", 2019, 2⟩ : Book) ∈ (deleteAuthor 1 sampleState).books ∧
    ¬ (⟨1, "Python Programming", 2020, 1⟩ : Book) ∈ (deleteAuthor 1 sampleState).books :=
  ⟨((C6_author_cascade_delete 1 sampleState).1 _).mpr (by decide),
   fun h => by
    have := ((C6_author_cascade_delete 1 sampleState).1 _).mp h
    exact absurd rfl this.2⟩

/-- C9: when the list endpoint is called without an ordering query
parameter, the result is the filtered books sorted by title in ascending
order (the view's default `ordering = ['title']`). -/
theorem C9_default_ordering :
    ∀ (st : ApiState) (t a : Option String) (y : Option Int) (s : Option String),
      listBooks st ⟨t, a, y, s, none⟩ =
        applyOrdering ⟨OrderKey.title, false⟩ (applyFilters st ⟨t, a, y, s, none⟩ st.books) ∧
      List.Sorted titleLe (listBooks st ⟨t, a, y, s, none⟩) ∧
      List.Perm (listBooks st ⟨t, a, y, s, none⟩)
        (applyFilters st ⟨t, a, y, s, none⟩ st.books) := by
  intro st t a y s
  haveI : IsTotal Book titleLe := ⟨fun x y => lexLe_total _ _⟩
  haveI : IsTrans Book titleLe := ⟨fun x y z h1 h2 => lexLe_trans _ _ _ h1 h2⟩
  refine ⟨rfl, ?_, ?_⟩
  · exact List.sorted_insertionSort _ _
  · exact List.perm_insertionSort _ _

/-- C10: the role predicates are mutually exclusive, return false for an
unauthenticated user or a user without a userprofile, and each holds
exactly when the user is authenticated, has a profile, and the profile's
role is the corresponding string. -/
theorem C10_role_predicates :
    ∀ u : WebUser,
      ((is_admin u && is_librarian u) = false ∧
       (is_admin u && is_member u) = false ∧
       (is_librarian u && is_member u) = false) ∧
      (∀ p : Option UserProfileAttr,
        is_admin ⟨false, p⟩ = false ∧ is_librarian ⟨false, p⟩ = false ∧
        is_member ⟨false, p⟩ = false) ∧
      (∀ auth : Bool,
        is_admin ⟨auth, none⟩ = false ∧ is_librarian ⟨auth, none⟩ = false ∧
        is_member ⟨auth, none⟩ = false) ∧
      (is_admin u = true ↔
        u.is_authenticated = true ∧ ∃ p, u.userprofile = some p ∧ p.role = "Admin") ∧
      (is_librarian u = true ↔
        u.is_authenticated = true ∧ ∃ p, u.userprofile = some p ∧ p.role = "Librarian") ∧
      (is_member u = true ↔
        u.is_authenticated = true ∧ ∃ p, u.userprofile = some p ∧ p.role = "Member") := by
  intro u
  obtain ⟨auth, prof⟩ := u
  refine ⟨?_, ?_, ?_, ?_, ?_, ?_⟩
  · cases prof with
    | none => simp [is_admin, is_librarian, is_member, roleIs]
    | some p =>
      by_cases hA : p.role = "Admin" <;> by_cases hL : p.role = "Librarian" <;>
        by_cases hM : p.role = "Member" <;>
        simp_all [is_admin, is_librarian, is_member, roleIs]
  · intro p; cases p <;> simp [is_admin, is_librarian, is_member, roleIs]
  · intro a; simp [is_admin, is_librarian, is_member, roleIs]
  · cases prof <;> simp [is_admin, roleIs]
  · cases prof <;> simp [is_librarian, roleIs]
  · cases prof <;> simp [is_member, roleIs]

/-- C2: without authentication, create, update and delete are rejected
with 401 or 403 and leave the stored books unchanged; list always
answers 200, and retrieve answers 200 for any user when the book
exists. -/
theorem C2_permission_enforcement (cy : Int) (st : ApiState) :
    (∀ p : BookPayload,
      ((apiStep cy false (Op.create p) st).fst.status = 401 ∨
       (apiStep cy false (Op.create p) st).fst.status = 403) ∧
      (apiStep cy false (Op.create p) st).snd = st) ∧
    (∀ (pk : Nat) (p : BookPayload),
      ((apiStep cy false (Op.update pk p) st).fst.status = 401 ∨
       (apiStep cy false (Op.update pk p) st).fst.status = 403) ∧
      (apiStep cy false (Op.update pk p) st).snd = st) ∧
    (∀ pk : Nat,
      ((apiStep cy false (Op.delete pk) st).fst.status = 401 ∨
       (apiStep cy false (Op.delete pk) st).fst.status = 403) ∧
      (apiStep cy false (Op.delete pk) st).snd = st) ∧
    (∀ (authed : Bool) (qp : QueryParams),
      (apiStep cy authed (Op.list qp) st).fst.status = 200 ∧
      (apiStep cy authed (Op.list qp) st).snd = st) ∧
    (∀ (authed : Bool) (pk : Nat) (b : Book), findBook st pk = some b →
      (apiStep cy authed (Op.retrieve pk) st).fst.status = 200 ∧
      (apiStep cy authed (Op.retrieve pk) st).snd = st) := by
  refine ⟨fun p => ⟨Or.inr rfl, rfl⟩, fun pk p => ⟨Or.inr rfl, rfl⟩,
    fun pk => ⟨Or.inr rfl, rfl⟩, fun authed qp => ⟨rfl, rfl⟩, ?_⟩
  intro authed pk b h
  simp [apiStep, h]

/-- C2 witness: on the test fixture, an unauthenticated create is
rejected with 401 or 403 and an anonymous retrieve of book 1 answers
200. -/
theorem C2_permission_enforcement_witness :
    (((apiStep 2025 false (Op.create ⟨"Unauthorized Book", 2022, 1⟩) sampleState).fst.status = 401 ∨
      (apiStep 2025 false (Op.create ⟨"Unauthorized Book", 2022, 1⟩) sampleState).fst.status = 403) ∧
     (apiStep 2025 false (Op.create ⟨"Unauthorized Book", 2022, 1⟩) sampleState).snd = sampleState) ∧
    (apiStep 2025 false (Op.retrieve 1) sampleState).fst.status = 200 :=
  ⟨(C2_permission_enforcement 2025 sampleState).1 ⟨"Unauthorized Book", 2022, 1⟩,
   ((C2_permission_enforcement 2025 sampleState).2.2.2.2 false 1
     ⟨1, "Python Programming", 2020, 1⟩ (by decide)).1⟩

/-- C3: the validation errors name publication_year exactly when the
submitted year is strictly greater than the current year; with the
author existing and the title valid, an authenticated create or update
answers 400 exactly when the year is in the future, the 400 names
publication_year and leaves the state unchanged, and a year equal to the
current year is accepted. -/
theorem C3_publication_year_validation (cy : Int) (st : ApiState) (p : BookPayload)
    (hA : authorExists st p.author = true)
    (hT : validTitle p.title = true) :
    (ErrField.publication_year ∈ validateBook cy st p ↔ p.publication_year > cy) ∧
    ((apiStep cy true (Op.create p) st).fst.status = 400 ↔ p.publication_year > cy) ∧
    (p.publication_year > cy →
      (apiStep cy true (Op.create p) st).fst.errors = [ErrField.publication_year] ∧
      (apiStep cy true (Op.create p) st).snd = st) ∧
    (p.publication_year = cy → (apiStep cy true (Op.create p) st).fst.status = 201) ∧
    (∀ (pk : Nat) (b : Book), findBook st pk = some b →
      ((apiStep cy true (Op.update pk p) st).fst.status = 400 ↔ p.publication_year > cy) ∧
      (p.publication_year > cy →
        (apiStep cy true (Op.update pk p) st).fst.errors = [ErrField.publication_year] ∧
        (apiStep cy true (Op.update pk p) st).snd = st)) := by
  by_cases h : p.publication_year > cy
  · have hv : validateBook cy st p = [ErrField.publication_year] := by
      simp [validateBook, validate_publication_year, hT, hA, h]
    have hc : apiStep cy true (Op.create p) st =
        (⟨400, [ErrField.publication_year], none, []⟩, st) := by
      simp [apiStep, hv]
    refine ⟨by simp [hv, h], by simp [hc, h], fun _ => by simp [hc],
      fun he => absurd h (by simp [he]), ?_⟩
    intro pk b hf
    have hu : apiStep cy true (Op.update pk p) st =
        (⟨400, [ErrField.publication_year], none, []⟩, st) := by
      simp [apiStep, hf, hv]
    exact ⟨by simp [hu, h], fun _ => by simp [hu]⟩
  · have hv : validateBook cy st p = [] := by
      simp [validateBook, validate_publication_year, hT, hA, h]
    have hc : (apiStep cy true (Op.create p) st).fst.status = 201 := by
      simp [apiStep, hv]
    refine ⟨by simp [hv, h], by simp [hc, h], fun hcon => absurd hcon h, fun _ => hc, ?_⟩
    intro pk b hf
    have hu : (apiStep cy true (Op.update pk p) st).fst.status = 200 := by
      simp [apiStep, hf, hv]
    exact ⟨by simp [hu, h], fun hcon => absurd hcon h⟩

/-- C3 witness: creating "Future Book" with year 3000 against current
year 2025 answers 400, and year 2025 itself is accepted with 201. -/
theorem C3_publication_year_validation_witness :
    (apiStep 2025 true (Op.create ⟨"Future Book", 3000, 1⟩) sampleState).fst.status = 400 ∧
    (apiStep 2025 true (Op.create ⟨"Edge Book", 2025, 1⟩) sampleState).fst.status = 201 :=
  ⟨(C3_publication_year_validation 2025 sampleState ⟨"Future Book", 3000, 1⟩ (by decide)
      (by decide)).2.1.mpr (by decide),
   (C3_publication_year_validation 2025 sampleState ⟨"Edge Book", 2025, 1⟩ (by decide)
      (by decide)).2.2.2.1 rfl⟩

/-- C4: an authenticated delete of an existing book answers 204, removes
exactly that book, and leaves every other book; any retrieve, update or
delete naming a missing id answers 404 and leaves the state unchanged. -/
theorem C4_delete_success_and_missing_404 (cy : Int) (st : ApiState) :
    (∀ (pk : Nat) (b : Book), findBook st pk = some b →
      (apiStep cy true (Op.delete pk) st).fst.status = 204 ∧
      findBook (apiStep cy true (Op.delete pk) st).snd pk = none ∧
      (∀ b' : Book, b' ∈ (apiStep cy true (Op.delete pk) st).snd.books ↔
        b' ∈ st.books ∧ b'.id ≠ pk)) ∧
    (∀ pk : Nat, findBook st pk = none →
      ((apiStep cy true (Op.retrieve pk) st).fst.status = 404 ∧
       (apiStep cy true (Op.retrieve pk) st).snd = st) ∧
      (∀ p : BookPayload,
        (apiStep cy true (Op.update pk p) st).fst.status = 404 ∧
        (apiStep cy true (Op.update pk p) st).snd = st) ∧
      ((apiStep cy true (Op.delete pk) st).fst.status = 404 ∧
       (apiStep cy true (Op.delete pk) st).snd = st)) := by
  constructor
  · intro pk b hf
    have hsnd : (apiStep cy true (Op.delete pk) st).snd.books =
        st.books.filter (fun b => b.id != pk) := by
      simp [apiStep, hf]
    refine ⟨by simp [apiStep, hf], ?_, ?_⟩
    · rw [findBook, hsnd]
      apply List.find?_eq_none.mpr
      intro x hx
      have := (List.mem_filter.mp hx).2
      simpa using this
    · intro b'
      rw [hsnd]
      simp [List.mem_filter]
  · intro pk hf
    exact ⟨⟨by simp [apiStep, hf], by simp [apiStep, hf]⟩,
      fun p => ⟨by simp [apiStep, hf], by simp [apiStep, hf]⟩,
      ⟨by simp [apiStep, hf], by simp [apiStep, hf]⟩⟩

/-- C4 witness: deleting book 1 of the fixture answers 204 and removes
it; deleting missing id 9999 answers 404 and changes nothing. -/
theorem C4_delete_success_and_missing_404_witness :
    (apiStep 2025 true (Op.delete 1) sampleState).fst.status = 204 ∧
    findBook (apiStep 2025 true (Op.delete 1) sampleState).snd 1 = none ∧
    (apiStep 2025 true (Op.delete 9999) sampleState).fst.status = 404 ∧
    (apiStep 2025 true (Op.delete 9999) sampleState).snd = sampleState :=
  ⟨((C4_delete_success_and_missing_404 2025 sampleState).1 1
      ⟨1, "Python Programming", 2020, 1⟩ (by decide)).1,
   ((C4_delete_success_and_missing_404 2025 sampleState).1 1
      ⟨1, "Python Programming", 2020, 1⟩ (by decide)).2.1,
   ((C4_delete_success_and_missing_404 2025 sampleState).2 9999 (by decide)).2.2.1,
   ((C4_delete_success_and_missing_404 2025 sampleState).2 9999 (by decide)).2.2.2⟩

/-- C7: for a valid payload (valid title, existing author, year not in
the future) and a fresh next id, an authenticated create answers 201
with the submitted field values, and retrieving the created id returns
exactly those values. -/
theorem C7_create_then_read (cy : Int) (st : ApiState) (p : BookPayload)
    (hA : authorExists st p.author = true)
    (hT : validTitle p.title = true)
    (hY : p.publication_year ≤ cy)
    (hFresh : ∀ b ∈ st.books, b.id ≠ st.nextBookId) :
    (apiStep cy true (Op.create p) st).fst.status = 201 ∧
    (apiStep cy true (Op.create p) st).fst.book =
      some ⟨st.nextBookId, p.title, p.publication_year, p.author⟩ ∧
    (apiStep cy true (Op.retrieve st.nextBookId)
        (apiStep cy true (Op.create p) st).snd).fst.status = 200 ∧
    (apiStep cy true (Op.retrieve st.nextBookId)
        (apiStep cy true (Op.create p) st).snd).fst.book =
      some ⟨st.nextBookId, p.title, p.publication_year, p.author⟩ := by
  have hnot : ¬ p.publication_year > cy := not_lt.mpr hY
  have hc : apiStep cy true (Op.create p) st =
      (⟨201, [], some ⟨st.nextBookId, p.title, p.publication_year, p.author⟩, []⟩,
       ⟨st.authors, st.books ++ [⟨st.nextBookId, p.title, p.publication_year, p.author⟩],
        st.nextBookId + 1⟩) := by
    simp [apiStep, validateBook, validate_publication_year, hT, hA, hnot]
  have hfind : findBook (apiStep cy true (Op.create p) st).snd st.nextBookId =
      some ⟨st.nextBookId, p.title, p.publication_year, p.author⟩ := by
    rw [hc]
    show (st.books ++ [(⟨st.nextBookId, p.title, p.publication_year, p.author⟩ : Book)]).find?
        (fun b => b.id == st.nextBookId) = _
    have h1 : st.books.find? (fun b => b.id == st.nextBookId) = none := by
      apply List.find?_eq_none.mpr
      intro x hx
      simpa using hFresh x hx
    simp [List.find?_append, h1]
  rw [hc] at hfind
  refine ⟨by rw [hc], by rw [hc], ?_, ?_⟩
  · rw [hc]; simp [apiStep, hfind]
  · rw [hc]; simp [apiStep, hfind]

/-- C7 witness: creating "New Book" (2022, author 1) on the fixture
answers 201 and retrieving the fresh id 4 returns the submitted
fields. -/
theorem C7_create_then_read_witness :
    (apiStep 2025 true (Op.create ⟨"New Book", 2022, 1⟩) sampleState).fst.status = 201 ∧
    (apiStep 2025 true (Op.retrieve 4)
        (apiStep 2025 true (Op.create ⟨"New Book", 2022, 1⟩) sampleState).snd).fst.book =
      some ⟨4, "New Book", 2022, 1⟩ :=
  ⟨(C7_create_then_read 2025 sampleState ⟨"New Book", 2022, 1⟩ (by decide) (by decide)
      (by decide) (by decide)).1,
   (C7_create_then_read 2025 sampleState ⟨"New Book", 2022, 1⟩ (by decide) (by decide)
      (by decide) (by decide)).2.2.2⟩

/-- C8: creating a user fires the post-save signal, which gives the new
user exactly one UserProfile with the default role 'Member', keeps
exactly one profile for every existing user, and a subsequent save of
any user changes nothing. -/
theorem C8_user_profile_signal (st : AuthState) (uid : Nat)
    (hInv : ∀ u ∈ st.users, (profilesFor st u).length = 1)
    (hNoProfile : profilesFor st uid = []) :
    (∀ u ∈ (createUser uid st).users, (profilesFor (createUser uid st) u).length = 1) ∧
    (profilesFor (createUser uid st) uid).map (fun pr => pr.role) = ["Member"] ∧
    (∀ (u : Nat) (s : AuthState), saveUser u s = s) := by
  have hkey : profilesFor (createUser uid st) uid = [⟨uid, "Member"⟩] := by
    show (st.profiles ++ [(⟨uid, "Member"⟩ : ProfileRec)]).filter (fun pr => pr.user == uid) =
      [(⟨uid, "Member"⟩ : ProfileRec)]
    rw [List.filter_append]
    have h0 : st.profiles.filter (fun pr => pr.user == uid) = [] := hNoProfile
    rw [h0]
    simp
  refine ⟨?_, by rw [hkey]; rfl, fun u s => rfl⟩
  intro u hu
  have hu' : u ∈ st.users ∨ u = uid := by simpa [createUser, postSaveUser,
    create_user_profile, save_user_profile] using hu
  by_cases huid : u = uid
  · subst huid
    rw [hkey]
    rfl
  · have hmem : u ∈ st.users := hu'.resolve_right huid
    have hne : (uid == u) = false := by
      simp only [beq_eq_false_iff_ne, ne_eq]
      exact fun h => huid h.symm
    have hsame : profilesFor (createUser uid st) u = profilesFor st u := by
      show (st.profiles ++ [(⟨uid, "Member"⟩ : ProfileRec)]).filter (fun pr => pr.user == u) =
        st.profiles.filter (fun pr => pr.user == u)
      rw [List.filter_append]
      simp [hne]
    rw [hsame]
    exact hInv u hmem

/-- C8 witness: creating user 7 in the empty state yields exactly the
profile with role 'Member'. -/
theorem C8_user_profile_signal_witness :
    (profilesFor (createUser 7 ⟨[], []⟩) 7).map (fun pr => pr.role) = ["Member"] :=
  (C8_user_profile_signal ⟨[], []⟩ 7 (by decide) rfl).2.1

/-- C1 counterexample: POST on /api/books/ is not a create route — in
advanced-api-project the path resolves to the list view, which handles
only GET, and in api_project it resolves to the GET-only ListAPIView;
PUT/PATCH/DELETE on /api/books/<id>/ likewise are not served — the path
resolves to the GET-only detail view in advanced-api-project and to no
view at all in api_project. -/
theorem C1_routes_counterexample :
    advProjectResolve [PathSeg.str "api", PathSeg.str "books"] = some AdvView.bookList ∧
    (advAllowed AdvView.bookList).contains Method.post = false ∧
    advProjectResolve [PathSeg.str "api", PathSeg.str "books", PathSeg.num 1] =
      some AdvView.bookDetail ∧
    (advAllowed AdvView.bookDetail).contains Method.put = false ∧
    (advAllowed AdvView.bookDetail).contains Method.patch = false ∧
    (advAllowed AdvView.bookDetail).contains Method.delete = false ∧
    apiProjResolve [PathSeg.str "api", PathSeg.str "books"] = some ApiProjView.bookListView ∧
    (apiProjAllowed ApiProjView.bookListView).contains Method.post = false ∧
    apiProjResolve [PathSeg.str "api", PathSeg.str "books", PathSeg.num 1] = none := by
  decide

/-- C1 amended: list is GET /api/books/ and retrieve GET /api/books/<id>/;
create is POST /api/books/create/, update PUT/PATCH /api/books/<id>/update/,
delete DELETE /api/books/<id>/delete/; the list operation accepts the
query parameters title, author, publication_year, search and ordering;
api_project provides the token-auth endpoint /api-token-auth/ and full
CRUD at /api/books_all/. -/
theorem C1_routes_amended :
    (advProjectResolve [PathSeg.str "api", PathSeg.str "books"] = some AdvView.bookList ∧
      advAllowed AdvView.bookList = [Method.get]) ∧
    (∀ pk : Nat, advProjectResolve [PathSeg.str "api", PathSeg.str "books", PathSeg.num pk] =
      some AdvView.bookDetail) ∧
    advAllowed AdvView.bookDetail = [Method.get] ∧
    (advProjectResolve [PathSeg.str "api", PathSeg.str "books", PathSeg.str "create"] =
      some AdvView.bookCreate ∧
      advAllowed AdvView.bookCreate = [Method.post]) ∧
    (∀ pk : Nat, advProjectResolve
      [PathSeg.str "api", PathSeg.str "books", PathSeg.num pk, PathSeg.str "update"] =
      some AdvView.bookUpdate) ∧
    advAllowed AdvView.bookUpdate = [Method.put, Method.patch] ∧
    (∀ pk : Nat, advProjectResolve
      [PathSeg.str "api", PathSeg.str "books", PathSeg.num pk, PathSeg.str "delete"] =
      some AdvView.bookDelete) ∧
    advAllowed AdvView.bookDelete = [Method.delete] ∧
    (apiProjResolve [PathSeg.str "api-token-auth"] = some ApiProjView.tokenAuth ∧
      apiProjAllowed ApiProjView.tokenAuth = [Method.post]) ∧
    (apiProjResolve [PathSeg.str "api", PathSeg.str "books_all"] = some ApiProjView.bookSetList ∧
      apiProjAllowed ApiProjView.bookSetList = [Method.get, Method.post]) ∧
    (∀ pk : Nat, apiProjResolve [PathSeg.str "api", PathSeg.str "books_all", PathSeg.num pk] =
      some ApiProjView.bookSetDetail) ∧
    apiProjAllowed ApiProjView.bookSetDetail =
      [Method.get, Method.put, Method.patch, Method.delete] ∧
    (∀ (cy : Int) (authed : Bool) (st : ApiState) (qp : QueryParams),
      apiStep cy authed (Op.list qp) st = (⟨200, [], none, listBooks st qp⟩, st)) := by
  exact ⟨⟨by decide, rfl⟩, fun pk => rfl, rfl, ⟨by decide, rfl⟩, fun pk => rfl, rfl,
    fun pk => rfl, rfl, ⟨by decide, rfl⟩, ⟨by decide, rfl⟩, fun pk => rfl, rfl,
    fun cy authed st qp => rfl⟩

end DjangoLearnLab
